import Mathlib

/-!
Shallow embedding of `dissect/target/container.py`: the `Container` base
class (its `detect` classmethod dispatch and `seekable`) and the `open`
dispatcher that probes a fixed, ordered registry of container kinds.

The concrete container kinds (EwfContainer, VmdkContainer, ...) live in
other modules of the repository and are only imported lazily here, so their
`detect_fh` / `detect_path` / constructor behaviours are modelled
parametrically: a `KindBehavior` assigns to each kind an arbitrary outcome
function, and theorems quantify over that assignment.

Python exceptions are modelled by the `Outcome` type: a call either
returns a value, raises an `ImportError` (caught by the dispatcher's
`except ImportError` branch), or raises any other exception (caught by the
dispatcher's `except Exception` branch).  The dispatcher's observable
behaviour is a result value plus a trace of events (detect calls,
constructor calls, logged warnings).
-/

namespace DissectTarget

/-- One scalar element of a detection input: a Python `str`, a
`pathlib.Path`, or a stream-like object (an object with a `read`
attribute), identified by an id. -/
inductive Elem where
  | str (s : String)
  | path (s : String)
  | stream (id : Nat)
deriving DecidableEq, Repr

/-- `hasattr(i, "read")`: only stream-like objects have a `read`
attribute; Python `str` and `pathlib.Path` do not. -/
def Elem.hasRead : Elem → Bool
  | .stream _ => true
  | _ => false

/-- The argument type of `open` and `Container.detect`
(`Union[list, str, BinaryIO, Path]`): a single element or a list of
elements. -/
inductive Item where
  | elem (e : Elem)
  | list (es : List Elem)
deriving DecidableEq, Repr

/-- Outcome of calling a Python function in the model: a returned value,
a raised `ImportError` (payload: its message), or any other raised
exception (payload: its description). -/
inductive Outcome (α : Type) where
  | ok (a : α)
  | importError (msg : String)
  | raises (exc : String)
deriving DecidableEq, Repr

/-- `Path(entry) if isinstance(entry, str) else entry` (container.py
line 171): coerce a string element to a path, leave anything else
unchanged. -/
def strToPath : Elem → Elem
  | .str s => .path s
  | e => e

/-- Input normalization performed by `open` (container.py lines 170-173):
a list is mapped element-wise through `strToPath`, a bare string becomes a
path, and any other single object is left unchanged. -/
def normalize : Item → Item
  | .list es => .list (es.map strToPath)
  | .elem (.str s) => .elem (.path s)
  | .elem e => .elem e

/-- A concrete container kind as the dispatcher sees it: its class name,
its `detect_fh` and `detect_path` static methods, and its constructor.
The constructor receives the (normalized) item followed by the caller's
extra positional and keyword arguments, and on success produces a
container instance, modelled by a `Nat` id. -/
structure Candidate where
  name : String
  detect_fh : Elem → Item → Outcome Bool
  detect_path : Elem → Item → Outcome Bool
  construct : Item → List String → List (String × String) → Outcome Nat

/-- `Container.detect` (container.py lines 58-72): take the first element
of a list input as the representative (`item[0]` raises `IndexError` on an
empty list), the input itself otherwise, then dispatch on
`hasattr(i, "read")` to `detect_fh(i, item)` or `detect_path(i, item)`,
passing the full original input as the second argument. -/
def Candidate.detect (c : Candidate) (item : Item) : Outcome Bool :=
  match item with
  | .list [] => .raises "IndexError"
  | .list (e :: es) =>
    if e.hasRead then c.detect_fh e (.list (e :: es))
    else c.detect_path e (.list (e :: es))
  | .elem e =>
    if e.hasRead then c.detect_fh e (.elem e)
    else c.detect_path e (.elem e)

/-- A `ContainerError` value raised by `open`: `failedToOpen = true` for
`ContainerError(f"Failed to open container {item}", cause=e)` and
`failedToOpen = false` for
`ContainerError(f"Failed to detect container for {item}")`; the error
message is built from `item` alone, and `cause` is the wrapped underlying
exception when one was passed. -/
structure ContainerError where
  failedToOpen : Bool
  item : Item
  cause : Option String
deriving DecidableEq, Repr

/-- The result of `open`: a constructed container instance of a named
kind, or a raised `ContainerError`. -/
inductive OpenResult where
  | opened (name : String) (instanceId : Nat)
  | err (e : ContainerError)
deriving DecidableEq, Repr

/-- Observable events of one `open` run: a call to a candidate's
`detect`, a call to a candidate's constructor, or a
`log.warning("Failed to import %s", container, exc_info=e)`. -/
inductive Event where
  | detectCall (name : String) (item : Item)
  | constructCall (name : String) (item : Item)
      (args : List String) (kwargs : List (String × String))
  | logWarning (name : String) (cause : String)
deriving DecidableEq, Repr

/-- The candidate loop of `open` (container.py lines 175-184).  For each
candidate in order: call `detect`; on `True` call the constructor and
return its instance; an `ImportError` anywhere in the `try` block is
logged as a warning and the loop continues; any other exception is
immediately re-raised as the wrapping `ContainerError`; when the list is
exhausted, raise the "Failed to detect container" error. -/
def openLoop (cands : List Candidate) (item : Item) (args : List String)
    (kwargs : List (String × String)) : OpenResult × List Event :=
  match cands with
  | [] => (.err ⟨false, item, none⟩, [])
  | c :: rest =>
    match c.detect item with
    | .ok true =>
      match c.construct item args kwargs with
      | .ok v =>
        (.opened c.name v,
         [.detectCall c.name item, .constructCall c.name item args kwargs])
      | .importError m =>
        let r := openLoop rest item args kwargs
        (r.1, .detectCall c.name item ::
          .constructCall c.name item args kwargs :: .logWarning c.name m :: r.2)
      | .raises e =>
        (.err ⟨true, item, some e⟩,
         [.detectCall c.name item, .constructCall c.name item args kwargs])
    | .ok false =>
      let r := openLoop rest item args kwargs
      (r.1, .detectCall c.name item :: r.2)
    | .importError m =>
      let r := openLoop rest item args kwargs
      (r.1, .detectCall c.name item :: .logWarning c.name m :: r.2)
    | .raises e =>
      (.err ⟨true, item, some e⟩, [.detectCall c.name item])

/-- The fixed registry order of `open` (container.py lines 160-169). -/
def registryNames : List String :=
  ["EwfContainer", "VmdkContainer", "VhdxContainer", "VhdContainer",
   "QCow2Container", "VdiContainer", "SplitContainer", "RawContainer"]

/-- The externally supplied behaviour of one concrete container kind:
its `detect_fh` / `detect_path` static methods and its constructor. -/
structure KindBehavior where
  detect_fh : Elem → Item → Outcome Bool
  detect_path : Elem → Item → Outcome Bool
  construct : Item → List String → List (String × String) → Outcome Nat

/-- Modelled from the spec: the concrete container kinds are not part of
this module; per the spec each kind implements the `detect_fh` /
`detect_path` / constructor triad and the dispatcher calls only the
unified inherited `detect`, so a kind is the base-class `detect` dispatch
paired with its own behaviour. -/
def mkCandidate (n : String) (b : KindBehavior) : Candidate :=
  ⟨n, b.detect_fh, b.detect_path, b.construct⟩

/-- The candidate list built by `open` (container.py lines 160-169): the
fixed registry order, each name paired with its externally supplied
behaviour. -/
def registry (B : String → KindBehavior) : List Candidate :=
  registryNames.map fun n => mkCandidate n (B n)

/-- `open` (container.py lines 146-184): normalize the input, then probe
the registry in order. -/
def openContainer (cands : List Candidate) (item : Item) (args : List String)
    (kwargs : List (String × String)) : OpenResult × List Event :=
  openLoop cands (normalize item) args kwargs

/-- The state of a `Container` instance set by `Container.__init__`
(container.py lines 48-53): the source `fh`, the fixed `size`, the
optional volume-system back-reference `vs`, plus the concrete kind the
instance belongs to. -/
structure Container where
  kind : String
  fh : Item
  size : Nat
  vs : Option Nat

/-- `Container.seekable` (container.py lines 130-132): returns `True`,
ignoring the instance entirely. -/
def Container.seekable (_c : Container) : Bool :=
  true

/-! ## Helper lemmas about the candidate loop -/

/-- Candidates whose `detect` returns `False` are skipped: the loop over
`pre ++ rest` produces the result of the loop over `rest`, with only the
`detect` calls of `pre` prepended to the trace. -/
theorem openLoop_append_of_detect_false (pre rest : List Candidate) (item : Item)
    (args : List String) (kwargs : List (String × String))
    (h : ∀ c ∈ pre, c.detect item = .ok false) :
    openLoop (pre ++ rest) item args kwargs =
      ((openLoop rest item args kwargs).1,
       pre.map (fun c => Event.detectCall c.name item) ++
         (openLoop rest item args kwargs).2) := by
  induction pre with
  | nil => rfl
  | cons c pre ih =>
    have hc : c.detect item = .ok false := h c (List.mem_cons_self c pre)
    have hp : ∀ x ∈ pre, x.detect item = .ok false :=
      fun x hx => h x (List.mem_cons_of_mem c hx)
    simp [openLoop, hc, ih hp]

/-- Every run of the loop ends in exactly one of three shapes: an opened
instance, a wrapping "failed to open" error carrying a cause, or the
"failed to detect" error carrying no cause. -/
theorem openLoop_result_cases (cands : List Candidate) (item : Item)
    (args : List String) (kwargs : List (String × String)) :
    (∃ n v, (openLoop cands item args kwargs).1 = .opened n v) ∨
    (∃ e, (openLoop cands item args kwargs).1 = .err ⟨true, item, some e⟩) ∨
    (openLoop cands item args kwargs).1 = .err ⟨false, item, none⟩ := by
  induction cands with
  | nil => right; right; rfl
  | cons c rest ih =>
    cases hd : c.detect item with
    | ok b =>
      cases b with
      | false => simpa [openLoop, hd] using ih
      | true =>
        cases hc : c.construct item args kwargs with
        | ok v => exact Or.inl ⟨c.name, v, by simp [openLoop, hd, hc]⟩
        | importError m => simpa [openLoop, hd, hc] using ih
        | raises e => exact Or.inr (Or.inl ⟨e, by simp [openLoop, hd, hc]⟩)
    | importError m => simpa [openLoop, hd] using ih
    | raises e => exact Or.inr (Or.inl ⟨e, by simp [openLoop, hd]⟩)

/-- The fixed registry order contains no duplicate kind names. -/
theorem registryNames_nodup : registryNames.Nodup := by decide

/-- Head step of the loop: `detect` returns `True` and the constructor
succeeds, so the candidate's instance is returned at once. -/
theorem openLoop_cons_detect_true_ok (c : Candidate) (rest : List Candidate)
    (item : Item) (args : List String) (kwargs : List (String × String)) (v : Nat)
    (hd : c.detect item = .ok true)
    (hc : c.construct item args kwargs = .ok v) :
    openLoop (c :: rest) item args kwargs =
      (.opened c.name v,
       [.detectCall c.name item, .constructCall c.name item args kwargs]) := by
  simp [openLoop, hd, hc]

/-- Head step of the loop: `detect` returns `True` but the constructor
raises a non-import exception, so the wrapping error is raised at once. -/
theorem openLoop_cons_construct_raises (c : Candidate) (rest : List Candidate)
    (item : Item) (args : List String) (kwargs : List (String × String)) (e : String)
    (hd : c.detect item = .ok true)
    (hc : c.construct item args kwargs = .raises e) :
    openLoop (c :: rest) item args kwargs =
      (.err ⟨true, item, some e⟩,
       [.detectCall c.name item, .constructCall c.name item args kwargs]) := by
  simp [openLoop, hd, hc]

/-- Head step of the loop: `detect` raises a non-import exception, so the
wrapping error is raised at once. -/
theorem openLoop_cons_detect_raises (c : Candidate) (rest : List Candidate)
    (item : Item) (args : List String) (kwargs : List (String × String)) (e : String)
    (hd : c.detect item = .raises e) :
    openLoop (c :: rest) item args kwargs =
      (.err ⟨true, item, some e⟩, [.detectCall c.name item]) := by
  simp [openLoop, hd]

/-- Head step of the loop: `detect` raises an `ImportError`, so a warning
is logged and the loop continues with the remaining candidates. -/
theorem openLoop_cons_detect_importError (c : Candidate) (rest : List Candidate)
    (item : Item) (args : List String) (kwargs : List (String × String)) (m : String)
    (hd : c.detect item = .importError m) :
    openLoop (c :: rest) item args kwargs =
      ((openLoop rest item args kwargs).1,
       .detectCall c.name item :: .logWarning c.name m ::
         (openLoop rest item args kwargs).2) := by
  simp [openLoop, hd]

/-- Head step of the loop: `detect` returns `True` but the constructor
raises an `ImportError`; the dispatcher's `except ImportError` branch
logs a warning and the loop continues with the remaining candidates. -/
theorem openLoop_cons_construct_importError (c : Candidate) (rest : List Candidate)
    (item : Item) (args : List String) (kwargs : List (String × String)) (m : String)
    (hd : c.detect item = .ok true)
    (hc : c.construct item args kwargs = .importError m) :
    openLoop (c :: rest) item args kwargs =
      ((openLoop rest item args kwargs).1,
       .detectCall c.name item :: .constructCall c.name item args kwargs ::
         .logWarning c.name m :: (openLoop rest item args kwargs).2) := by
  simp [openLoop, hd, hc]

/-! ## Concrete kind behaviours used by witnesses and counterexamples -/

/-- A kind behaviour whose `detect_fh` / `detect_path` always return
`False`. -/
def alwaysFalse : KindBehavior :=
  ⟨fun _ _ => .ok false, fun _ _ => .ok false, fun _ _ _ => .ok 0⟩

/-- A kind behaviour whose `detect_fh` / `detect_path` always return
`True` and whose constructor succeeds, producing instance 42. -/
def alwaysTrue42 : KindBehavior :=
  ⟨fun _ _ => .ok true, fun _ _ => .ok true, fun _ _ _ => .ok 42⟩

/-- A kind behaviour that detects `True` but whose constructor raises an
`ImportError`. -/
def ctorImportErr : KindBehavior :=
  ⟨fun _ _ => .ok true, fun _ _ => .ok true,
   fun _ _ _ => .importError "No module named dissect.ewf"⟩

/-- A kind behaviour that detects `True` but whose constructor raises a
non-import exception. -/
def ctorBoom : KindBehavior :=
  ⟨fun _ _ => .ok true, fun _ _ => .ok true, fun _ _ _ => .raises "ValueError: boom"⟩

/-- A kind behaviour whose detection phase raises an `ImportError`
(an unavailable optional backend). -/
def detImportErr : KindBehavior :=
  ⟨fun _ _ => .importError "No module named dissect.evidence",
   fun _ _ => .importError "No module named dissect.evidence",
   fun _ _ _ => .ok 0⟩

/-- Behaviour assignment: only VhdxContainer detects `True`. -/
def demoVhdx : String → KindBehavior := fun n =>
  if n = "VhdxContainer" then alwaysTrue42 else alwaysFalse

/-- Behaviour assignment: EwfContainer detects `True` but its constructor
raises an `ImportError`; VmdkContainer detects `True` and opens fine. -/
def demoCtorImport : String → KindBehavior := fun n =>
  if n = "EwfContainer" then ctorImportErr
  else if n = "VmdkContainer" then alwaysTrue42
  else alwaysFalse

/-- Behaviour assignment: EwfContainer detects `True` but its constructor
raises a non-import exception. -/
def demoCtorBoom : String → KindBehavior := fun n =>
  if n = "EwfContainer" then ctorBoom else alwaysFalse

/-- Behaviour assignment: VmdkContainer detects `True` but its
constructor raises a non-import exception. -/
def demoCtorBoomVmdk : String → KindBehavior := fun n =>
  if n = "VmdkContainer" then ctorBoom else alwaysFalse

/-- Behaviour assignment: EwfContainer's detection raises an
`ImportError`; VmdkContainer detects `True` and opens fine. -/
def demoDetImport : String → KindBehavior := fun n =>
  if n = "EwfContainer" then detImportErr
  else if n = "VmdkContainer" then alwaysTrue42
  else alwaysFalse

/-- Behaviour assignment: every kind detects `False`. -/
def demoNone : String → KindBehavior := fun _ => alwaysFalse

/-- A kind behaviour whose detection phase raises a non-import
exception. -/
def detBoom : KindBehavior :=
  ⟨fun _ _ => .raises "OSError: seek failed",
   fun _ _ => .raises "OSError: seek failed", fun _ _ _ => .ok 0⟩

/-- Behaviour assignment: EwfContainer's detection raises a non-import
exception. -/
def demoDetBoom : String → KindBehavior := fun n =>
  if n = "EwfContainer" then detBoom else alwaysFalse

/-! ## Claim theorems -/

/-- Claim C1: whenever the candidates placed before some kind in the
fixed registry order all have `detect` return `False` while that kind's
`detect` returns `True` (and its constructor succeeds), `open` returns
the instance constructed by that earliest matching kind, no candidate
later in the order has its `detect` called, and the registry order is
exactly [EwfContainer, VmdkContainer, VhdxContainer, VhdContainer,
QCow2Container, VdiContainer, SplitContainer, RawContainer] with the
catch-all RawContainer last. -/
theorem open_returns_earliest_match
    (B : String → KindBehavior) (item : Item) (args : List String)
    (kwargs : List (String × String)) (preN postN : List String) (n₀ : String) (v : Nat)
    (hsplit : registryNames = preN ++ n₀ :: postN)
    (hpre : ∀ n ∈ preN, (mkCandidate n (B n)).detect (normalize item) = .ok false)
    (hdet : (mkCandidate n₀ (B n₀)).detect (normalize item) = .ok true)
    (hcon : (B n₀).construct (normalize item) args kwargs = .ok v) :
    (openContainer (registry B) item args kwargs).1 = .opened n₀ v ∧
    (∀ n ∈ postN, ∀ it,
      Event.detectCall n it ∉ (openContainer (registry B) item args kwargs).2) ∧
    registryNames = ["EwfContainer", "VmdkContainer", "VhdxContainer", "VhdContainer",
      "QCow2Container", "VdiContainer", "SplitContainer", "RawContainer"] ∧
    registryNames.getLast? = some "RawContainer" := by
  have hreg : registry B =
      (preN.map fun n => mkCandidate n (B n)) ++
        mkCandidate n₀ (B n₀) :: (postN.map fun n => mkCandidate n (B n)) := by
    rw [registry, hsplit, List.map_append, List.map_cons]
  have hpre' : ∀ c ∈ preN.map fun n => mkCandidate n (B n),
      c.detect (normalize item) = Outcome.ok false := by
    intro c hc
    obtain ⟨n, hn, rfl⟩ := List.mem_map.1 hc
    exact hpre n hn
  have hrun : openContainer (registry B) item args kwargs =
      (.opened n₀ v,
        ((preN.map fun n => mkCandidate n (B n)).map
            fun c => Event.detectCall c.name (normalize item)) ++
          [Event.detectCall n₀ (normalize item),
           Event.constructCall n₀ (normalize item) args kwargs]) := by
    rw [openContainer, hreg, openLoop_append_of_detect_false _ _ _ _ _ hpre',
        openLoop_cons_detect_true_ok _ _ _ _ _ _ hdet hcon]
    rfl
  have hnodup : (preN ++ n₀ :: postN).Nodup := hsplit ▸ registryNames_nodup
  rw [List.nodup_append] at hnodup
  obtain ⟨-, hcons, hdisj⟩ := hnodup
  refine ⟨by rw [hrun], ?_, by decide, by decide⟩
  intro n hn it hmem
  rw [hrun] at hmem
  simp only [List.mem_append, List.mem_map, List.mem_cons,
    List.not_mem_nil, or_false] at hmem
  rcases hmem with ⟨c, ⟨m, hm, rfl⟩, heq⟩ | heq | heq
  · have hmn : m = n := by
      have := (Event.detectCall.injEq _ _ _ _).mp heq
      simpa [mkCandidate] using this.1
    exact hdisj (hmn ▸ hm) (List.mem_cons_of_mem _ hn)
  · have hn₀ : n = n₀ := ((Event.detectCall.injEq _ _ _ _).mp heq.symm).1.symm
    exact (List.nodup_cons.mp hcons).1 (hn₀ ▸ hn)
  · simp at heq

/-- Concrete run of `open_returns_earliest_match`: with EwfContainer and
VmdkContainer detecting `False` and VhdxContainer detecting `True`,
`open` returns the VhdxContainer instance. -/
theorem open_returns_earliest_match_witness :
    (openContainer (registry demoVhdx) (.elem (.path "disk.vhdx")) [] []).1 =
      .opened "VhdxContainer" 42 :=
  (open_returns_earliest_match demoVhdx (.elem (.path "disk.vhdx")) [] []
    ["EwfContainer", "VmdkContainer"]
    ["VhdContainer", "QCow2Container", "VdiContainer", "SplitContainer", "RawContainer"]
    "VhdxContainer" 42 (by decide) (by decide) (by decide) (by decide)).1

/-- Claim C2 counterexample: EwfContainer's `detect` returns `True` and
its constructor raises (an `ImportError`), yet `open` does not raise the
wrapping error: the `except ImportError` branch covers the whole `try`
body, so the loop logs and falls through, calls VmdkContainer's `detect`,
and returns VmdkContainer's instance. -/
theorem open_ctor_raises_counterexample :
    (mkCandidate "EwfContainer" (demoCtorImport "EwfContainer")).detect
      (normalize (.elem (.path "disk.E01"))) = .ok true ∧
    (demoCtorImport "EwfContainer").construct
      (normalize (.elem (.path "disk.E01"))) [] [] =
      .importError "No module named dissect.ewf" ∧
    (openContainer (registry demoCtorImport) (.elem (.path "disk.E01")) [] []).1 =
      .opened "VmdkContainer" 42 ∧
    Event.detectCall "VmdkContainer" (.elem (.path "disk.E01")) ∈
      (openContainer (registry demoCtorImport) (.elem (.path "disk.E01")) [] []).2 := by
  decide

/-- Claim C2 (amended): if a candidate's `detect` returns `True` and its
constructor raises a non-import exception, `open` raises the wrapping
`ContainerError` immediately and calls no later candidate's `detect`;
a constructor `ImportError` is instead logged and probing continues. -/
theorem open_ctor_raises_fatal
    (B : String → KindBehavior) (item : Item) (args : List String)
    (kwargs : List (String × String)) (preN postN : List String) (n₀ e : String)
    (hsplit : registryNames = preN ++ n₀ :: postN)
    (hpre : ∀ n ∈ preN, (mkCandidate n (B n)).detect (normalize item) = .ok false)
    (hdet : (mkCandidate n₀ (B n₀)).detect (normalize item) = .ok true)
    (hcon : (B n₀).construct (normalize item) args kwargs = .raises e) :
    (openContainer (registry B) item args kwargs).1 =
      .err ⟨true, normalize item, some e⟩ ∧
    (∀ n ∈ postN, ∀ it,
      Event.detectCall n it ∉ (openContainer (registry B) item args kwargs).2) := by
  have hreg : registry B =
      (preN.map fun n => mkCandidate n (B n)) ++
        mkCandidate n₀ (B n₀) :: (postN.map fun n => mkCandidate n (B n)) := by
    rw [registry, hsplit, List.map_append, List.map_cons]
  have hpre' : ∀ c ∈ preN.map fun n => mkCandidate n (B n),
      c.detect (normalize item) = Outcome.ok false := by
    intro c hc
    obtain ⟨n, hn, rfl⟩ := List.mem_map.1 hc
    exact hpre n hn
  have hrun : openContainer (registry B) item args kwargs =
      (.err ⟨true, normalize item, some e⟩,
        ((preN.map fun n => mkCandidate n (B n)).map
            fun c => Event.detectCall c.name (normalize item)) ++
          [Event.detectCall n₀ (normalize item),
           Event.constructCall n₀ (normalize item) args kwargs]) := by
    rw [openContainer, hreg, openLoop_append_of_detect_false _ _ _ _ _ hpre',
        openLoop_cons_construct_raises _ _ _ _ _ _ hdet hcon]
    rfl
  have hnodup : (preN ++ n₀ :: postN).Nodup := hsplit ▸ registryNames_nodup
  rw [List.nodup_append] at hnodup
  obtain ⟨-, hcons, hdisj⟩ := hnodup
  refine ⟨by rw [hrun], ?_⟩
  intro n hn it hmem
  rw [hrun] at hmem
  simp only [List.mem_append, List.mem_map, List.mem_cons,
    List.not_mem_nil, or_false] at hmem
  rcases hmem with ⟨c, ⟨m, hm, rfl⟩, heq⟩ | heq | heq
  · have hmn : m = n := by
      have := (Event.detectCall.injEq _ _ _ _).mp heq
      simpa [mkCandidate] using this.1
    exact hdisj (hmn ▸ hm) (List.mem_cons_of_mem _ hn)
  · have hn₀ : n = n₀ := ((Event.detectCall.injEq _ _ _ _).mp heq.symm).1.symm
    exact (List.nodup_cons.mp hcons).1 (hn₀ ▸ hn)
  · simp at heq

/-- Concrete run of `open_ctor_raises_fatal`: EwfContainer detects `True`
and its constructor raises a `ValueError`, so `open` raises the wrapping
error. -/
theorem open_ctor_raises_fatal_witness :
    (openContainer (registry demoCtorBoom) (.elem (.path "disk.E01")) [] []).1 =
      .err ⟨true, .elem (.path "disk.E01"), some "ValueError: boom"⟩ :=
  (open_ctor_raises_fatal demoCtorBoom (.elem (.path "disk.E01")) [] [] []
    ["VmdkContainer", "VhdxContainer", "VhdContainer", "QCow2Container",
     "VdiContainer", "SplitContainer", "RawContainer"]
    "EwfContainer" "ValueError: boom"
    (by decide) (by decide) (by decide) (by decide)).1

/-- Claim C3: a candidate whose detection raises an `ImportError` is
skipped with a logged warning, and `open` still succeeds when a later
candidate matches. -/
theorem open_detect_import_error_falls_through
    (B : String → KindBehavior) (item : Item) (args : List String)
    (kwargs : List (String × String)) (preN midN postN : List String)
    (n₀ n₁ m : String) (v : Nat)
    (hsplit : registryNames = preN ++ n₀ :: (midN ++ n₁ :: postN))
    (hpre : ∀ n ∈ preN, (mkCandidate n (B n)).detect (normalize item) = .ok false)
    (himp : (mkCandidate n₀ (B n₀)).detect (normalize item) = .importError m)
    (hmid : ∀ n ∈ midN, (mkCandidate n (B n)).detect (normalize item) = .ok false)
    (hdet : (mkCandidate n₁ (B n₁)).detect (normalize item) = .ok true)
    (hcon : (B n₁).construct (normalize item) args kwargs = .ok v) :
    (openContainer (registry B) item args kwargs).1 = .opened n₁ v ∧
    Event.logWarning n₀ m ∈ (openContainer (registry B) item args kwargs).2 := by
  have hreg : registry B =
      (preN.map fun n => mkCandidate n (B n)) ++
        mkCandidate n₀ (B n₀) ::
          ((midN.map fun n => mkCandidate n (B n)) ++
            mkCandidate n₁ (B n₁) :: (postN.map fun n => mkCandidate n (B n))) := by
    rw [registry, hsplit, List.map_append, List.map_cons, List.map_append, List.map_cons]
  have hpre' : ∀ c ∈ preN.map fun n => mkCandidate n (B n),
      c.detect (normalize item) = Outcome.ok false := by
    intro c hc
    obtain ⟨n, hn, rfl⟩ := List.mem_map.1 hc
    exact hpre n hn
  have hmid' : ∀ c ∈ midN.map fun n => mkCandidate n (B n),
      c.detect (normalize item) = Outcome.ok false := by
    intro c hc
    obtain ⟨n, hn, rfl⟩ := List.mem_map.1 hc
    exact hmid n hn
  have hrun : openContainer (registry B) item args kwargs =
      (.opened n₁ v,
        ((preN.map fun n => mkCandidate n (B n)).map
            fun c => Event.detectCall c.name (normalize item)) ++
          .detectCall n₀ (normalize item) :: .logWarning n₀ m ::
            (((midN.map fun n => mkCandidate n (B n)).map
                fun c => Event.detectCall c.name (normalize item)) ++
              [Event.detectCall n₁ (normalize item),
               Event.constructCall n₁ (normalize item) args kwargs])) := by
    rw [openContainer, hreg, openLoop_append_of_detect_false _ _ _ _ _ hpre',
        openLoop_cons_detect_importError _ _ _ _ _ _ himp,
        openLoop_append_of_detect_false _ _ _ _ _ hmid',
        openLoop_cons_detect_true_ok _ _ _ _ _ _ hdet hcon]
    rfl
  refine ⟨by rw [hrun], ?_⟩
  rw [hrun]
  simp

/-- Concrete run of `open_detect_import_error_falls_through`:
EwfContainer's detection raises an `ImportError`, VmdkContainer matches,
so `open` returns VmdkContainer's instance and the warning for
EwfContainer is in the log. -/
theorem open_detect_import_error_falls_through_witness :
    (openContainer (registry demoDetImport) (.elem (.path "disk.E01")) [] []).1 =
      .opened "VmdkContainer" 42 ∧
    Event.logWarning "EwfContainer" "No module named dissect.evidence" ∈
      (openContainer (registry demoDetImport) (.elem (.path "disk.E01")) [] []).2 :=
  open_detect_import_error_falls_through demoDetImport (.elem (.path "disk.E01"))
    [] [] [] []
    ["VhdxContainer", "VhdContainer", "QCow2Container", "VdiContainer",
     "SplitContainer", "RawContainer"]
    "EwfContainer" "VmdkContainer" "No module named dissect.evidence" 42
    (by decide) (by decide) (by decide) (by decide) (by decide) (by decide)

/-- Claim C4: `Container.detect` takes the first element of a list input
as the representative (the input itself otherwise) and dispatches on
whether that representative is stream-like: a representative with a
`read` attribute goes to `detect_fh`, any other goes to `detect_path`,
and in both cases the full original input is passed as the second
argument. -/
theorem detect_representative_dispatch (c : Candidate) :
    (∀ n es, c.detect (.list (.stream n :: es)) =
      c.detect_fh (.stream n) (.list (.stream n :: es))) ∧
    (∀ s es, c.detect (.list (.path s :: es)) =
      c.detect_path (.path s) (.list (.path s :: es))) ∧
    (∀ s es, c.detect (.list (.str s :: es)) =
      c.detect_path (.str s) (.list (.str s :: es))) ∧
    (∀ n, c.detect (.elem (.stream n)) =
      c.detect_fh (.stream n) (.elem (.stream n))) ∧
    (∀ s, c.detect (.elem (.path s)) =
      c.detect_path (.path s) (.elem (.path s))) ∧
    (∀ s, c.detect (.elem (.str s)) =
      c.detect_path (.str s) (.elem (.str s))) :=
  ⟨fun _ _ => rfl, fun _ _ => rfl, fun _ _ => rfl,
   fun _ => rfl, fun _ => rfl, fun _ => rfl⟩

/-- Claim C5: `open` normalizes its input before probing: a bare string
becomes a path, a list is mapped element-wise with string entries becoming
paths and non-string entries unchanged (order preserved by the map), a
single non-string non-list input passes through unchanged, and the probe
loop runs on the normalized item. -/
theorem open_normalizes_input :
    (∀ s, normalize (.elem (.str s)) = .elem (.path s)) ∧
    (∀ es, normalize (.list es) = .list (es.map strToPath)) ∧
    (∀ s, strToPath (.str s) = .path s) ∧
    (∀ s, strToPath (.path s) = .path s) ∧
    (∀ n, strToPath (.stream n) = .stream n) ∧
    (∀ s, normalize (.elem (.path s)) = .elem (.path s)) ∧
    (∀ n, normalize (.elem (.stream n)) = .elem (.stream n)) ∧
    (∀ cands item args kwargs, openContainer cands item args kwargs =
      openLoop cands (normalize item) args kwargs) :=
  ⟨fun _ => rfl, fun _ => rfl, fun _ => rfl, fun _ => rfl,
   fun _ => rfl, fun _ => rfl, fun _ => rfl, fun _ _ _ _ => rfl⟩

/-- Claim C6 counterexample: two runs in which different candidate kinds
fail (EwfContainer in the first, VmdkContainer in the second, as the
constructor-call events show) raise equal `ContainerError` values: the
error is built from the normalized input and the cause alone, so it does
not identify the candidate kind that failed. -/
theorem open_failure_names_kind_counterexample :
    (openContainer (registry demoCtorBoom) (.elem (.path "img.bin")) [] []).1 =
      .err ⟨true, .elem (.path "img.bin"), some "ValueError: boom"⟩ ∧
    (openContainer (registry demoCtorBoomVmdk) (.elem (.path "img.bin")) [] []).1 =
      (openContainer (registry demoCtorBoom) (.elem (.path "img.bin")) [] []).1 ∧
    Event.constructCall "EwfContainer" (.elem (.path "img.bin")) [] [] ∈
      (openContainer (registry demoCtorBoom) (.elem (.path "img.bin")) [] []).2 ∧
    Event.constructCall "EwfContainer" (.elem (.path "img.bin")) [] [] ∉
      (openContainer (registry demoCtorBoomVmdk) (.elem (.path "img.bin")) [] []).2 ∧
    Event.constructCall "VmdkContainer" (.elem (.path "img.bin")) [] [] ∈
      (openContainer (registry demoCtorBoomVmdk) (.elem (.path "img.bin")) [] []).2 := by
  decide

/-- Claim C6 (amended): whenever `open` raises because a candidate's
`detect` raised a non-import exception, or its `detect` returned `True`
and its constructor raised a non-import exception, the raised
`ContainerError` wraps that underlying cause and carries the normalized
input in its message; the failing candidate kind is not part of the
error. -/
theorem open_failure_wraps_cause
    (B : String → KindBehavior) (item : Item) (args : List String)
    (kwargs : List (String × String)) (preN postN : List String) (n₀ e : String)
    (hsplit : registryNames = preN ++ n₀ :: postN)
    (hpre : ∀ n ∈ preN, (mkCandidate n (B n)).detect (normalize item) = .ok false)
    (hfail : (mkCandidate n₀ (B n₀)).detect (normalize item) = .raises e ∨
      ((mkCandidate n₀ (B n₀)).detect (normalize item) = .ok true ∧
        (B n₀).construct (normalize item) args kwargs = .raises e)) :
    (openContainer (registry B) item args kwargs).1 =
      .err ⟨true, normalize item, some e⟩ := by
  have hreg : registry B =
      (preN.map fun n => mkCandidate n (B n)) ++
        mkCandidate n₀ (B n₀) :: (postN.map fun n => mkCandidate n (B n)) := by
    rw [registry, hsplit, List.map_append, List.map_cons]
  have hpre' : ∀ c ∈ preN.map fun n => mkCandidate n (B n),
      c.detect (normalize item) = Outcome.ok false := by
    intro c hc
    obtain ⟨n, hn, rfl⟩ := List.mem_map.1 hc
    exact hpre n hn
  rcases hfail with hd | ⟨hd, hc⟩
  · rw [openContainer, hreg, openLoop_append_of_detect_false _ _ _ _ _ hpre',
        openLoop_cons_detect_raises _ _ _ _ _ _ hd]
  · rw [openContainer, hreg, openLoop_append_of_detect_false _ _ _ _ _ hpre',
        openLoop_cons_construct_raises _ _ _ _ _ _ hd hc]

/-- Concrete run of `open_failure_wraps_cause`: EwfContainer's detection
raises an `OSError`, and `open` raises the wrapping error carrying that
cause and the input. -/
theorem open_failure_wraps_cause_witness :
    (openContainer (registry demoDetBoom) (.elem (.path "img.bin")) [] []).1 =
      .err ⟨true, .elem (.path "img.bin"), some "OSError: seek failed"⟩ :=
  open_failure_wraps_cause demoDetBoom (.elem (.path "img.bin")) [] [] []
    ["VmdkContainer", "VhdxContainer", "VhdContainer", "QCow2Container",
     "VdiContainer", "SplitContainer", "RawContainer"]
    "EwfContainer" "OSError: seek failed"
    (by decide) (by decide) (by decide)

/-- Claim C7: when every candidate's `detect` returns `False` (and none
raises), `open` raises the "Failed to detect container" error, which
names the normalized input and carries no cause; moreover every run of
`open` ends in exactly one of three shapes: an opened instance, the
wrapping "Failed to open" error with a cause, or this no-match error
with no cause. -/
theorem open_no_match_error
    (B : String → KindBehavior) (item : Item) (args : List String)
    (kwargs : List (String × String))
    (h : ∀ n ∈ registryNames, (mkCandidate n (B n)).detect (normalize item) = .ok false) :
    (openContainer (registry B) item args kwargs).1 =
      .err ⟨false, normalize item, none⟩ ∧
    (∀ (cands : List Candidate) (item2 : Item) (args2 : List String)
        (kwargs2 : List (String × String)),
      (∃ n v, (openContainer cands item2 args2 kwargs2).1 = .opened n v) ∨
      (∃ e, (openContainer cands item2 args2 kwargs2).1 =
        .err ⟨true, normalize item2, some e⟩) ∨
      (openContainer cands item2 args2 kwargs2).1 =
        .err ⟨false, normalize item2, none⟩) := by
  constructor
  · have h' : ∀ c ∈ registry B, c.detect (normalize item) = Outcome.ok false := by
      intro c hc
      obtain ⟨n, hn, rfl⟩ := List.mem_map.1 hc
      exact h n hn
    rw [openContainer, ← List.append_nil (registry B),
        openLoop_append_of_detect_false _ _ _ _ _ h']
    rfl
  · intro cands item2 args2 kwargs2
    exact openLoop_result_cases cands (normalize item2) args2 kwargs2

/-- Concrete run of `open_no_match_error`: every kind detects `False`,
so `open` raises the no-match error with no cause. -/
theorem open_no_match_error_witness :
    (openContainer (registry demoNone) (.elem (.path "foo.img")) [] []).1 =
      .err ⟨false, .elem (.path "foo.img"), none⟩ :=
  (open_no_match_error demoNone (.elem (.path "foo.img")) [] [] (by decide)).1

/-- Claim C8: when `open` selects a matching candidate, the constructor
is called with the normalized input followed by the caller's extra
positional and keyword arguments verbatim, and `open` returns exactly
the instance that constructor produces. -/
theorem open_forwards_constructor_args
    (B : String → KindBehavior) (item : Item) (args : List String)
    (kwargs : List (String × String)) (preN postN : List String) (n₀ : String) (v : Nat)
    (hsplit : registryNames = preN ++ n₀ :: postN)
    (hpre : ∀ n ∈ preN, (mkCandidate n (B n)).detect (normalize item) = .ok false)
    (hdet : (mkCandidate n₀ (B n₀)).detect (normalize item) = .ok true)
    (hcon : (B n₀).construct (normalize item) args kwargs = .ok v) :
    (openContainer (registry B) item args kwargs).1 = .opened n₀ v ∧
    Event.constructCall n₀ (normalize item) args kwargs ∈
      (openContainer (registry B) item args kwargs).2 := by
  have hreg : registry B =
      (preN.map fun n => mkCandidate n (B n)) ++
        mkCandidate n₀ (B n₀) :: (postN.map fun n => mkCandidate n (B n)) := by
    rw [registry, hsplit, List.map_append, List.map_cons]
  have hpre' : ∀ c ∈ preN.map fun n => mkCandidate n (B n),
      c.detect (normalize item) = Outcome.ok false := by
    intro c hc
    obtain ⟨n, hn, rfl⟩ := List.mem_map.1 hc
    exact hpre n hn
  have hrun : openContainer (registry B) item args kwargs =
      (.opened n₀ v,
        ((preN.map fun n => mkCandidate n (B n)).map
            fun c => Event.detectCall c.name (normalize item)) ++
          [Event.detectCall n₀ (normalize item),
           Event.constructCall n₀ (normalize item) args kwargs]) := by
    rw [openContainer, hreg, openLoop_append_of_detect_false _ _ _ _ _ hpre',
        openLoop_cons_detect_true_ok _ _ _ _ _ _ hdet hcon]
    rfl
  refine ⟨by rw [hrun], ?_⟩
  rw [hrun]
  simp

/-- Concrete run of `open_forwards_constructor_args`: VhdxContainer
matches and its constructor receives the normalized path plus the
caller's extra arguments verbatim. -/
theorem open_forwards_constructor_args_witness :
    (openContainer (registry demoVhdx) (.elem (.str "disk.vhdx"))
      ["64"] [("vs", "None")]).1 = .opened "VhdxContainer" 42 ∧
    Event.constructCall "VhdxContainer" (.elem (.path "disk.vhdx"))
      ["64"] [("vs", "None")] ∈
      (openContainer (registry demoVhdx) (.elem (.str "disk.vhdx"))
        ["64"] [("vs", "None")]).2 :=
  open_forwards_constructor_args demoVhdx (.elem (.str "disk.vhdx"))
    ["64"] [("vs", "None")] ["EwfContainer", "VmdkContainer"]
    ["VhdContainer", "QCow2Container", "VdiContainer", "SplitContainer", "RawContainer"]
    "VhdxContainer" 42 (by decide) (by decide) (by decide) (by decide)

/-- Claim C9: `Container.seekable` returns `true` for every instance,
whatever its kind or state. -/
theorem seekable_always_true (c : Container) : c.seekable = true :=
  rfl

/-- Claim C10: on the empty list, `open` raises the wrapping "Failed to
open container" error whose cause is the `IndexError` from taking the
representative first element inside the first candidate's `detect`, not
the "Failed to detect container" error; the single traced event is that
`detect` call, and the outcome is the same for every behaviour of the
kinds, so no kind's `detect_fh` or `detect_path` is ever consulted. -/
theorem open_empty_list (B : String → KindBehavior) (args : List String)
    (kwargs : List (String × String)) :
    openContainer (registry B) (.list []) args kwargs =
      (.err ⟨true, .list [], some "IndexError"⟩,
       [.detectCall "EwfContainer" (.list [])]) :=
  rfl

end DissectTarget
